import Mathlib

/-!
# Verification of the fbuild memoization core

A shallow embedding of the fbuild build engine's call-memoization database
(`src/lib/fbuild/db/backend.py`), driver glue (`src/bin/fbuild.py`) and
context operations (`src/lib/fbuild/context.py`), with theorems checking the
natural-language specification against the code.

Modelling conventions:
* Machine times (`mtime`, `time.time()`) are rationals (seconds).
* A file's cryptographic content digest is modelled by the content string
  itself, an injective stand-in for the real fingerprint.
* The filesystem is a pure map from pathname to `(mtime, content)`;
  `getmtime` on an absent path raises `OSError`, modelled with `Except`.
* The five persistent tables are association lists inside a `DBSt` record.
  The primitive table operations (`find_file`, `save_file`, `find_call`,
  `save_call`, ...) are abstract (`NotImplementedError`) in
  `src/lib/fbuild/db/backend.py`; they are modelled from the spec (§4.B
  contract).  The derived algorithms (`add_file`, `check_call_file`,
  `check_call_files`, `check_external_files`, `check_function`, `prepare`,
  `cache`, `save_call_files`) are translated from the source.
-/

set_option autoImplicit false

namespace Fbuild

/-! ## Association-list utilities -/

/-- Lookup of the first binding of a key in an association list. -/
def alookup {α β : Type} [DecidableEq α] : List (α × β) → α → Option β
  | [], _ => none
  | (k, v) :: rest, k' => if k' = k then some v else alookup rest k'

/-- Insert-or-replace: replace the first binding of the key, or append. -/
def aset {α β : Type} [DecidableEq α] : List (α × β) → α → β → List (α × β)
  | [], k, v => [(k, v)]
  | (k0, v0) :: rest, k, v =>
    if k = k0 then (k0, v) :: rest else (k0, v0) :: aset rest k v

/-- Delete every binding of a key from an association list. -/
def adel {α β : Type} [DecidableEq α] : List (α × β) → α → List (α × β)
  | [], _ => []
  | (k0, v0) :: rest, k =>
    if k = k0 then adel rest k else (k0, v0) :: adel rest k

@[simp] theorem alookup_nil {α β : Type} [DecidableEq α] (k : α) :
    alookup ([] : List (α × β)) k = none := rfl

theorem alookup_aset_self {α β : Type} [DecidableEq α]
    (l : List (α × β)) (k : α) (v : β) : alookup (aset l k v) k = some v := by
  induction l with
  | nil => simp [aset, alookup]
  | cons p rest ih =>
    obtain ⟨k0, v0⟩ := p
    by_cases h : k = k0 <;> simp [aset, alookup, h, ih]

theorem alookup_aset_ne {α β : Type} [DecidableEq α]
    (l : List (α × β)) (k k' : α) (v : β) (h : k' ≠ k) :
    alookup (aset l k v) k' = alookup l k' := by
  induction l with
  | nil => simp [aset, alookup, h]
  | cons p rest ih =>
    obtain ⟨k0, v0⟩ := p
    by_cases hk : k = k0
    · subst hk
      simp [aset, alookup, h]
    · by_cases hk' : k' = k0 <;> simp [aset, alookup, hk, hk', ih]

theorem alookup_adel_ne {α β : Type} [DecidableEq α]
    (l : List (α × β)) (k k' : α) (h : k' ≠ k) :
    alookup (adel l k) k' = alookup l k' := by
  induction l with
  | nil => simp [adel]
  | cons p rest ih =>
    obtain ⟨k0, v0⟩ := p
    by_cases hk : k = k0
    · subst hk
      simp [adel, alookup, h, ih]
    · by_cases hk' : k' = k0 <;> simp [adel, alookup, hk, hk', ih]

/-! ## Filesystem and database state -/

/-- A pure snapshot of the filesystem: pathname to `(mtime, content)`. -/
def FS : Type := String → Option (ℚ × String)

/-- The error `OSError`, raised by `getmtime` when the path cannot be stat'd. -/
inductive OSErr : Type
  | oserror
  deriving DecidableEq, Repr

/-- The persistent tables owned by the backend (spec §3).  `calls` maps the
`(function-name, bound-digest)` key to the durable call-id and pickled
result; `nextCallId` models the allocator for fresh call-ids. -/
structure DBSt : Type where
  functions : List (String × String)
  calls : List ((String × String) × (Nat × String))
  nextCallId : Nat
  callFiles : List ((Nat × String × String) × String)
  extSrcs : List ((Nat × String) × List String)
  extDsts : List ((Nat × String) × List String)
  files : List (String × (ℚ × String))
  deriving DecidableEq, Repr

/-! ### Primitive backend operations

Modelled from the spec: the concrete storage engines are not part of the
core sources (the base class raises `NotImplementedError`), so each
primitive follows the §4.B contract line for its operation. -/

/-- Modelled from the spec: `find_function(name)` returns the previous
digest or absent. -/
def find_function (s : DBSt) (fun_name : String) : Option String :=
  alookup s.functions fun_name

/-- Modelled from the spec: `save_function(name, digest)` overwrites, and
when the digest differs from the previous one deletes all call, call-file
and external-deps records whose function-name matches. -/
def save_function (s : DBSt) (fun_name digest : String) : DBSt :=
  let cascade : Bool :=
    match alookup s.functions fun_name with
    | some old => old != digest
    | none => false
  let s :=
    if cascade then
      { s with
        calls := s.calls.filter (fun p => p.1.1 ≠ fun_name)
        callFiles := s.callFiles.filter (fun p => p.1.2.1 ≠ fun_name)
        extSrcs := s.extSrcs.filter (fun p => p.1.2 ≠ fun_name)
        extDsts := s.extDsts.filter (fun p => p.1.2 ≠ fun_name) }
    else s
  { s with functions := aset s.functions fun_name digest }

/-- Modelled from the spec: `find_call(name, bound)` returns
`(call-id, result)` or absent (the source unpacks absent as a `None`
pair). -/
def find_call (s : DBSt) (fun_name bound : String) : Option (Nat × String) :=
  alookup s.calls (fun_name, bound)

/-- Modelled from the spec: `save_call(name, prior-call-id, bound, result)`
returns the final call-id, a new one if the prior call-id is absent. -/
def save_call (s : DBSt) (fun_name : String) (call_id : Option Nat)
    (bound result : String) : Nat × DBSt :=
  match call_id with
  | some cid =>
    (cid, { s with calls := aset s.calls (fun_name, bound) (cid, result) })
  | none =>
    (s.nextCallId,
      { s with
        calls := aset s.calls (fun_name, bound) (s.nextCallId, result)
        nextCallId := s.nextCallId + 1 })

/-- Modelled from the spec: `find_call_file(call-id, name, path)` returns
the previously recorded digest or absent. -/
def find_call_file (s : DBSt) (call_id : Nat) (fun_name file_name : String) :
    Option String :=
  alookup s.callFiles (call_id, fun_name, file_name)

/-- Modelled from the spec: `save_call_file(call-id, name, path, digest)`
inserts or updates the call-file record. -/
def save_call_file (s : DBSt) (call_id : Nat) (fun_name file_name digest : String) :
    DBSt :=
  { s with callFiles := aset s.callFiles (call_id, fun_name, file_name) digest }

/-- Modelled from the spec: `find_external_srcs(call-id, name)` returns the
set of recorded external source paths (empty when the call-id is absent). -/
def find_external_srcs (s : DBSt) (call_id : Option Nat) (fun_name : String) :
    List String :=
  match call_id with
  | none => []
  | some cid => (alookup s.extSrcs (cid, fun_name)).getD []

/-- Modelled from the spec: `find_external_dsts(call-id, name)` returns the
set of recorded external destination paths. -/
def find_external_dsts (s : DBSt) (call_id : Option Nat) (fun_name : String) :
    List String :=
  match call_id with
  | none => []
  | some cid => (alookup s.extDsts (cid, fun_name)).getD []

/-- Modelled from the spec: `save_external_files(name, call-id, srcs, dsts,
digests)` records the external source and destination path sets under the
call-id and stores each observed digest as a call-file record. -/
def save_external_files (s : DBSt) (fun_name : String) (call_id : Nat)
    (srcs dsts : List String) (digests : List (String × String)) : DBSt :=
  let s := digests.foldl
    (fun acc p => save_call_file acc call_id fun_name p.1 p.2) s
  { s with
    extSrcs := aset s.extSrcs (call_id, fun_name) srcs
    extDsts := aset s.extDsts (call_id, fun_name) dsts }

/-- Modelled from the spec: `find_file` returns the file's old mtime and
digest, or an absent pair if it has never been seen. -/
def find_file (s : DBSt) (file_name : String) : Option (ℚ × String) :=
  alookup s.files file_name

/-- Modelled from the spec: `save_file(path, mtime, digest)` inserts or
updates the file record. -/
def save_file (s : DBSt) (file_name : String) (mtime : ℚ) (digest : String) :
    DBSt :=
  { s with files := aset s.files file_name (mtime, digest) }

/-- Modelled from the spec: `delete_file(path)` removes the file record. -/
def delete_file (s : DBSt) (file_name : String) : DBSt :=
  { s with files := adel s.files file_name }

/-! ### Derived backend algorithms, translated from
`src/lib/fbuild/db/backend.py` -/

/-- Translation of `Backend.add_file` (backend.py:228-262): observe a file, with the
mtime fast path, the digest-unchanged mtime refresh, and the
delete-then-save on content change. -/
def add_file (fs : FS) (now : ℚ) (file_name : String) (s : DBSt) :
    Except OSErr (Bool × ℚ × String) × DBSt :=
  match fs file_name with
  | none => (Except.error OSErr.oserror, s)
  | some (mtime, content) =>
    match find_file s file_name with
    | some (old_mtime, old_digest) =>
      if mtime = old_mtime ∧ now - mtime > 1 then
        (Except.ok (false, mtime, old_digest), s)
      else
        let digest := content
        if digest = old_digest then
          (Except.ok (false, mtime, digest), save_file s file_name mtime digest)
        else
          (Except.ok (true, mtime, digest),
            save_file (delete_file s file_name) file_name mtime digest)
    | none =>
      let digest := content
      (Except.ok (true, mtime, digest),
        save_file (delete_file s file_name) file_name mtime digest)

/-- Translation of `Backend.check_call_file` (backend.py:153-172): dirty when the call-id
is absent or the stored digest is absent or differs; otherwise the
`add_file` dirty flag is passed through. -/
def check_call_file (fs : FS) (now : ℚ) (call_id : Option Nat)
    (fun_name file_name : String) (s : DBSt) :
    Except OSErr (Bool × String) × DBSt :=
  match add_file fs now file_name s with
  | (Except.error e, s') => (Except.error e, s')
  | (Except.ok (dirty, _mtime, digest), s') =>
    match call_id with
    | none => (Except.ok (true, digest), s')
    | some cid =>
      match find_call_file s' cid fun_name file_name with
      | some old_digest =>
        if digest = old_digest then (Except.ok (dirty, digest), s')
        else (Except.ok (true, digest), s')
      | none => (Except.ok (true, digest), s')

/-- Translation of `Backend.check_call_files` (backend.py:126-139): collect the
`(file, digest)` pairs of the dirty declared sources, in order. -/
def check_call_files (fs : FS) (now : ℚ) (call_id : Option Nat)
    (fun_name : String) :
    List String → DBSt → Except OSErr (List (String × String)) × DBSt
  | [], s => (Except.ok [], s)
  | f :: rest, s =>
    match check_call_file fs now call_id fun_name f s with
    | (Except.error e, s') => (Except.error e, s')
    | (Except.ok (d, digest), s') =>
      match check_call_files fs now call_id fun_name rest s' with
      | (Except.error e, s2) => (Except.error e, s2)
      | (Except.ok ds, s2) =>
        (Except.ok (if d then (f, digest) :: ds else ds), s2)

/-- The `for src in srcs` loop of `Backend.check_external_files`
(backend.py:198-207): an `OSError` from observing a source sets the dirty
flag and the loop continues. -/
def check_external_loop (fs : FS) (now : ℚ) (call_id : Option Nat)
    (fun_name : String) :
    List String → DBSt → (Bool × List (String × String)) × DBSt
  | [], s => ((false, []), s)
  | src :: rest, s =>
    match check_call_file fs now call_id fun_name src s with
    | (Except.error _, s') =>
      let ((_, ds), s2) := check_external_loop fs now call_id fun_name rest s'
      ((true, ds), s2)
    | (Except.ok (d, digest), s') =>
      let ((dirty, ds), s2) := check_external_loop fs now call_id fun_name rest s'
      ((dirty, if d then (src, digest) :: ds else ds), s2)

/-- Translation of `Backend.check_external_files` (backend.py:187-209): look up the
recorded external sources and destinations, observe only the sources, and
return the dirty flag, both path sets and the dirty digests. -/
def check_external_files (fs : FS) (now : ℚ) (call_id : Option Nat)
    (fun_name : String) (s : DBSt) :
    (Bool × List String × List String × List (String × String)) × DBSt :=
  let srcs := find_external_srcs s call_id fun_name
  let dsts := find_external_dsts s call_id fun_name
  let ((external_dirty, digests), s') :=
    check_external_loop fs now call_id fun_name srcs s
  ((external_dirty, srcs, dsts, digests), s')

/-- Translation of `Backend.check_function` (backend.py:83-95): the function is dirty when
it has no recorded digest or the recorded digest differs. -/
def check_function (s : DBSt) (fun_name fun_digest : String) : Bool :=
  match find_function s fun_name with
  | none => true
  | some old_digest => fun_digest != old_digest

/-- The decision tuple returned by `Backend.prepare`. -/
structure PrepareRes : Type where
  fun_dirty : Bool
  call_id : Option Nat
  old_result : Option String
  call_file_digests : List (String × String)
  external_dirty : Bool
  external_srcs : List String
  external_dsts : List String
  external_digests : List (String × String)
  deriving DecidableEq, Repr

/-- Translation of `Backend.prepare` (backend.py:26-50): query everything needed to decide
whether the cached call may be reused.  The `dsts` parameter is unused, as
in the source. -/
def prepare (fs : FS) (now : ℚ) (fun_name fun_digest bound : String)
    (srcs : List String) (dsts : List String) (s : DBSt) :
    Except OSErr PrepareRes × DBSt :=
  let fun_dirty := check_function s fun_name fun_digest
  let found := find_call s fun_name bound
  let call_id := found.map Prod.fst
  let old_result := found.map Prod.snd
  match check_call_files fs now call_id fun_name srcs s with
  | (Except.error e, s') => (Except.error e, s')
  | (Except.ok call_file_digests, s') =>
    let ((external_dirty, external_srcs, external_dsts, external_digests), s2) :=
      check_external_files fs now call_id fun_name s'
    (Except.ok
      { fun_dirty := fun_dirty
        call_id := call_id
        old_result := old_result
        call_file_digests := call_file_digests
        external_dirty := external_dirty
        external_srcs := external_srcs
        external_dsts := external_dsts
        external_digests := external_digests }, s2)

/-- Translation of `Backend.save_call_files` (backend.py:141-149): store every digest in
the list under the given call-id. -/
def save_call_files (s : DBSt) (call_id : Nat) (fun_name : String)
    (digests : List (String × String)) : DBSt :=
  digests.foldl (fun acc p => save_call_file acc call_id fun_name p.1 p.2) s

/-- Translation of `Backend.cache` (backend.py:52-79): persist the function digest when
dirty, persist the call to obtain the final call-id, then store the dirty
call-file digests and the external files under that final call-id. -/
def cache (s : DBSt) (fun_dirty : Bool) (fun_name fun_digest : String)
    (call_id : Option Nat) (bound result : String)
    (call_file_digests : List (String × String))
    (external_srcs external_dsts : List String)
    (external_digests : List (String × String)) : DBSt :=
  let s := if fun_dirty then save_function s fun_name fun_digest else s
  let (call_id, s) := save_call s fun_name call_id bound result
  let s := save_call_files s call_id fun_name call_file_digests
  save_external_files s fun_name call_id external_srcs external_dsts
    external_digests

/-! ## Pickling with the context sentinel (backend.py:282-320)

The object graphs handed to `pickle_dumps` are modelled by `PyObj`; the
constructor `PyObj.ctxRef` stands for a reference that is identical
(`obj is self.ctx`) to the context singleton.  `Blob` models the pickle
stream: `Blob.bpid` is a persistent-id record, `Blob.bctxEmbedded` is what
default pickling would emit for the context (an embedded copy); the custom
`Pickler.persistent_id` hook replaces the context with the sentinel id
`"ctx"`, and `Unpickler.persistent_load` re-binds it, raising
`UnpicklingError` for any other persistent id. -/

/-- A picklable object graph; `ctxRef` is a reference identical to the
context singleton. -/
inductive PyObj : Type
  | ctxRef : PyObj
  | atom : String → PyObj
  | tupleV : List PyObj → PyObj

/-- The serialized stream. -/
inductive Blob : Type
  | bpid : String → Blob
  | bctxEmbedded : Blob
  | batom : String → Blob
  | btuple : List Blob → Blob

/-- The error `pickle.UnpicklingError`. -/
inductive PickleErr : Type
  | unpicklingError
  deriving DecidableEq, Repr

mutual

/-- Translation of `Pickler.dump` with the `persistent_id` hook (backend.py:289-293): the
context is written as the persistent id `"ctx"`, everything else is
embedded structurally. -/
def dumpObj : PyObj → Blob
  | PyObj.ctxRef => Blob.bpid "ctx"
  | PyObj.atom s => Blob.batom s
  | PyObj.tupleV l => Blob.btuple (dumpList l)

def dumpList : List PyObj → List Blob
  | [] => []
  | o :: rest => dumpObj o :: dumpList rest

end

mutual

/-- Translation of `Unpickler.load` with the `persistent_load` hook (backend.py:302-306):
the persistent id `"ctx"` is re-bound to the context, any other persistent
id raises `UnpicklingError`. -/
def loadObj : Blob → Except PickleErr PyObj
  | Blob.bpid pid =>
    if pid = "ctx" then Except.ok PyObj.ctxRef
    else Except.error PickleErr.unpicklingError
  | Blob.bctxEmbedded => Except.error PickleErr.unpicklingError
  | Blob.batom s => Except.ok (PyObj.atom s)
  | Blob.btuple l =>
    match loadList l with
    | Except.ok objs => Except.ok (PyObj.tupleV objs)
    | Except.error e => Except.error e

def loadList : List Blob → Except PickleErr (List PyObj)
  | [] => Except.ok []
  | b :: rest =>
    match loadObj b, loadList rest with
    | Except.ok o, Except.ok os => Except.ok (o :: os)
    | Except.error e, _ => Except.error e
    | Except.ok _, Except.error e => Except.error e

end

/-- Translation of `pickle_dumps(ctx, obj)` (backend.py:309-314). -/
def pickle_dumps (obj : PyObj) : Blob := dumpObj obj

/-- Translation of `pickle_loads(ctx, string)` (backend.py:317-320). -/
def pickle_loads (blob : Blob) : Except PickleErr PyObj := loadObj blob

mutual

/-- Whether an object graph contains a reference identical to the context. -/
def objMentionsCtx : PyObj → Bool
  | PyObj.ctxRef => true
  | PyObj.atom _ => false
  | PyObj.tupleV l => objListMentionsCtx l

def objListMentionsCtx : List PyObj → Bool
  | [] => false
  | o :: rest => objMentionsCtx o || objListMentionsCtx rest

end

mutual

/-- Whether a stream contains an embedded copy of the context. -/
def blobHasEmbeddedCtx : Blob → Bool
  | Blob.bpid _ => false
  | Blob.bctxEmbedded => true
  | Blob.batom _ => false
  | Blob.btuple l => blobListHasEmbeddedCtx l

def blobListHasEmbeddedCtx : List Blob → Bool
  | [] => false
  | b :: rest => blobHasEmbeddedCtx b || blobListHasEmbeddedCtx rest

end

mutual

/-- Whether a stream contains the sentinel persistent id `"ctx"`. -/
def blobHasCtxPid : Blob → Bool
  | Blob.bpid pid => pid = "ctx"
  | Blob.bctxEmbedded => false
  | Blob.batom _ => false
  | Blob.btuple l => blobListHasCtxPid l

def blobListHasCtxPid : List Blob → Bool
  | [] => false
  | b :: rest => blobHasCtxPid b || blobListHasCtxPid rest

end

/-! ## Signal masking around the database save (context.py:85-94) -/

/-- An installed SIGINT disposition. -/
inductive Handler : Type
  | sig_ign
  | sig_dfl
  | custom : Nat → Handler
  deriving DecidableEq, Repr

/-- The process's signal-handler state. -/
structure SigSt : Type where
  handler : Handler
  deriving DecidableEq, Repr

/-- The error `fbuild.DatabaseError` from closing the store. -/
inductive DbErr : Type
  | dberror
  deriving DecidableEq, Repr

/-- Model of `signal.signal(signal.SIGINT, h)`: install `h`, return the previous
disposition. -/
def signal_signal (h : Handler) (s : SigSt) : Handler × SigSt :=
  (s.handler, { handler := h })

/-- Translation of `Context.save_configuration` (context.py:85-94): when saving is
enabled, install `SIG_IGN`, run `db.close` (which may raise), and restore
the previous disposition in a `finally`.  Returns the propagated close
result, the final signal state, and the disposition that was in effect
while `db.close` ran (`none` when saving was disabled and `close` never
ran). -/
def save_configuration (do_not_save_database closeRaises : Bool)
    (s : SigSt) : Except DbErr Unit × SigSt × Option Handler :=
  if do_not_save_database then (Except.ok (), s, none)
  else
    let (prev_handler, s1) := signal_signal Handler.sig_ign s
    let duringClose := s1.handler
    let closeRes : Except DbErr Unit :=
      if closeRaises then Except.error DbErr.dberror else Except.ok ()
    let (_, s2) := signal_signal prev_handler s1
    (closeRes, s2, some duringClose)

/-! ## Context.execute (context.py:190-252) -/

/-- Failure kinds of `Context.execute`: `ExecutionTimedOut`,
`ExecutionError` (each carrying the captured output and exit code),
`OSError` from spawning, and the `KeyboardInterrupt` re-raised when the
child died of SIGINT. -/
inductive ExecErr : Type
  | executionTimedOut : String → String → Int → ExecErr
  | executionError : String → String → Int → ExecErr
  | osError : ExecErr
  | keyboardInterrupt : ExecErr
  deriving DecidableEq, Repr

/-- The constant `signal.SIGINT`. -/
def SIGINT : Int := 2

/-- The outcome logic of `Context.execute` (context.py:190-252), given the
timeout configuration, whether the timeout callback fired, whether `Popen`
or `communicate` raised `OSError`, the `ignore_error` flag and the
subprocess outcome: an `OSError` propagates; a child killed by SIGINT
re-raises `KeyboardInterrupt`; then an expired timeout raises
`ExecutionTimedOut`; then a non-zero exit with `ignore_error` unset raises
`ExecutionError`; otherwise the captured `(stdout, stderr)` pair is
returned. -/
def context_execute (timeoutSet timed_out spawnFails ignore_error : Bool)
    (stdout stderr : String) (returncode : Int) :
    Except ExecErr (String × String) :=
  if spawnFails then Except.error ExecErr.osError
  else if returncode = -SIGINT then Except.error ExecErr.keyboardInterrupt
  else if timeoutSet = true ∧ timed_out = true then
    Except.error (ExecErr.executionTimedOut stdout stderr returncode)
  else if returncode ≠ 0 ∧ ignore_error = false then
    Except.error (ExecErr.executionError stdout stderr returncode)
  else Except.ok (stdout, stderr)

/-! ## The driver's main (bin/fbuild.py:132-176)

The configuration database of the old driver is the module dictionary
`fbuild.db.database.__dict__`: a tree of string-keyed dictionaries with
opaque leaves, modelled by `Value`.  Dictionaries are modelled as functions
so that Python's in-place `del` becomes a pointwise update. -/

/-- A configuration value: an opaque leaf or a string-keyed dictionary. -/
inductive Value : Type
  | leafV : Nat → Value
  | dictV : (String → Option Value) → Value

/-- The errors `KeyError` (a missing key) and `TypeError` (indexing a non-dictionary),
as raised by `d[key]` and `del d[key]`. -/
inductive PyErr : Type
  | keyError
  | typeError
  deriving DecidableEq, Repr

/-- Pointwise update of a dictionary: bind or delete one key. -/
def dictUpdate (f : String → Option Value) (k : String)
    (w : Option Value) : String → Option Value :=
  fun k' => if k' = k then w else f k'

/-- Presence-oriented lookup of a nested key path. -/
def lookupPath : Value → List String → Option Value
  | v, [] => some v
  | Value.leafV _, _ :: _ => none
  | Value.dictV f, k :: rest =>
    match f k with
    | some v => lookupPath v rest
    | none => none

/-- The traversal `for key in keys: d = d[key]` of the config-query branch
(bin/fbuild.py:143-144), with Python's exception behaviour: a missing key
raises `KeyError`, indexing a non-dictionary raises `TypeError`. -/
def lookupPathPy : Value → List String → Except PyErr Value
  | v, [] => Except.ok v
  | Value.leafV _, _ :: _ => Except.error PyErr.typeError
  | Value.dictV f, k :: rest =>
    match f k with
    | some v => lookupPathPy v rest
    | none => Except.error PyErr.keyError

/-- The config-remove mutation (bin/fbuild.py:156-158): walk
`keys[:-1]` by indexing, then `del` the last key in the dictionary
reached.  A missing key on the path raises `KeyError`; indexing or
deleting on a non-dictionary raises `TypeError`.  The driver never calls
this with an empty key list (`split()` of a non-empty option string);
that unreachable case is mapped to `KeyError`. -/
def removePath : Value → List String → Except PyErr Value
  | _, [] => Except.error PyErr.keyError
  | Value.leafV _, _ :: _ => Except.error PyErr.typeError
  | Value.dictV f, k :: rest =>
    match rest with
    | [] =>
      match f k with
      | some _ => Except.ok (Value.dictV (dictUpdate f k none))
      | none => Except.error PyErr.keyError
    | _ :: _ =>
      match f k with
      | none => Except.error PyErr.keyError
      | some v =>
        match removePath v rest with
        | Except.ok v' => Except.ok (Value.dictV (dictUpdate f k (some v')))
        | Except.error e => Except.error e

/-- Which branch of `main`'s try block runs (bin/fbuild.py:134-167). -/
inductive Mode : Type
  | build
  | configDump
  | configQuery : List String → Mode
  | configRemove : List String → Mode

/-- How the user's `fbuildroot.build()` ends: normally, with an
`fbuild.Error`, or with any other exception. -/
inductive BuildOutcome : Type
  | ok
  | fbuildError : String → BuildOutcome
  | otherExc : String → BuildOutcome
  deriving DecidableEq, Repr

/-- An exception escaping the try block: an `fbuild.Error` or anything
else. -/
inductive PyRaise : Type
  | fbuildError : String → PyRaise
  | otherExc : String → PyRaise
  deriving DecidableEq, Repr

/-- The try block of `main` (bin/fbuild.py:133-167): the config branches
return 0 or raise `fbuild.Error` on a missing key (`TypeError` propagates
as-is), and the build branch runs `fbuildroot.build()`. -/
def mainTry (mode : Mode) (outcome : BuildOutcome) (db : Value) :
    Except PyRaise (Nat × Value) :=
  match mode with
  | Mode.configDump => Except.ok (0, db)
  | Mode.configQuery keys =>
    match lookupPathPy db keys with
    | Except.ok _ => Except.ok (0, db)
    | Except.error PyErr.keyError =>
      Except.error (PyRaise.fbuildError "missing config value")
    | Except.error PyErr.typeError =>
      Except.error (PyRaise.otherExc "TypeError")
  | Mode.configRemove keys =>
    match removePath db keys with
    | Except.ok db' => Except.ok (0, db')
    | Except.error PyErr.keyError =>
      Except.error (PyRaise.fbuildError "missing config value")
    | Except.error PyErr.typeError =>
      Except.error (PyRaise.otherExc "TypeError")
  | Mode.build =>
    match outcome with
    | BuildOutcome.ok => Except.ok (0, db)
    | BuildOutcome.fbuildError msg => Except.error (PyRaise.fbuildError msg)
    | BuildOutcome.otherExc msg => Except.error (PyRaise.otherExc msg)

/-- The observable result of `main` after the database was loaded:
`exit` is the returned status, or the exception that propagated;
`db` is the configuration database afterwards; `saved` records whether
`fbuild.db.database.save` ran; `logged` the coloured log lines. -/
structure MainRes : Type where
  exit : Except String Nat
  db : Value
  saved : Bool
  logged : List (String × String)

/-- Translation of the try/except/finally of `main` (bin/fbuild.py:132-176): an
`fbuild.Error` is logged coloured red and turned into exit status 1, any
other exception propagates, and the `finally` clause saves the database on
every path. -/
def mainBody (mode : Mode) (outcome : BuildOutcome) (db : Value) : MainRes :=
  match mainTry mode outcome db with
  | Except.ok (code, db') =>
    { exit := Except.ok code, db := db', saved := true, logged := [] }
  | Except.error (PyRaise.fbuildError msg) =>
    { exit := Except.ok 1, db := db, saved := true,
      logged := [(msg, "red")] }
  | Except.error (PyRaise.otherExc msg) =>
    { exit := Except.error msg, db := db, saved := true, logged := [] }

/-! ## Pickle round-trip lemmas -/

mutual

theorem load_dump_obj : ∀ (o : PyObj), loadObj (dumpObj o) = Except.ok o
  | PyObj.ctxRef => by simp [dumpObj, loadObj]
  | PyObj.atom s => by simp [dumpObj, loadObj]
  | PyObj.tupleV l => by simp [dumpObj, loadObj, load_dump_list l]

theorem load_dump_list : ∀ (l : List PyObj), loadList (dumpList l) = Except.ok l
  | [] => by simp [dumpList, loadList]
  | o :: rest => by
    simp [dumpList, loadList, load_dump_obj o, load_dump_list rest]

end

mutual

theorem dump_no_embedded_obj :
    ∀ (o : PyObj), blobHasEmbeddedCtx (dumpObj o) = false
  | PyObj.ctxRef => by simp [dumpObj, blobHasEmbeddedCtx]
  | PyObj.atom s => by simp [dumpObj, blobHasEmbeddedCtx]
  | PyObj.tupleV l => by
    simp [dumpObj, blobHasEmbeddedCtx, dump_no_embedded_list l]

theorem dump_no_embedded_list :
    ∀ (l : List PyObj), blobListHasEmbeddedCtx (dumpList l) = false
  | [] => by simp [dumpList, blobListHasEmbeddedCtx]
  | o :: rest => by
    simp [dumpList, blobListHasEmbeddedCtx, dump_no_embedded_obj o,
      dump_no_embedded_list rest]

end

mutual

theorem dump_pid_obj :
    ∀ (o : PyObj), objMentionsCtx o = true → blobHasCtxPid (dumpObj o) = true
  | PyObj.ctxRef => by simp [dumpObj, blobHasCtxPid, objMentionsCtx]
  | PyObj.atom s => by simp [objMentionsCtx]
  | PyObj.tupleV l => by
    simp only [dumpObj, blobHasCtxPid, objMentionsCtx]
    exact dump_pid_list l

theorem dump_pid_list :
    ∀ (l : List PyObj),
      objListMentionsCtx l = true → blobListHasCtxPid (dumpList l) = true
  | [] => by simp [objListMentionsCtx]
  | o :: rest => by
    simp only [dumpList, blobListHasCtxPid, objListMentionsCtx,
      Bool.or_eq_true]
    rintro (h | h)
    · exact Or.inl (dump_pid_obj o h)
    · exact Or.inr (dump_pid_list rest h)

end

/-- C5: `pickle_loads` inverts `pickle_dumps` on every object graph,
re-binding every reference identical to the context to the context, and
the serialized blob never embeds a copy of the context: whenever the
graph mentions the context, the blob carries the sentinel persistent id
`"ctx"` in its place. -/
theorem C5_pickle_roundtrip (o : PyObj) :
    pickle_loads (pickle_dumps o) = Except.ok o
  ∧ blobHasEmbeddedCtx (pickle_dumps o) = false
  ∧ (objMentionsCtx o = true → blobHasCtxPid (pickle_dumps o) = true) :=
  ⟨load_dump_obj o, dump_no_embedded_obj o, dump_pid_obj o⟩

/-- Witness for C5 at a concrete object graph containing the context. -/
theorem C5_pickle_roundtrip_witness :
    pickle_loads (pickle_dumps (PyObj.tupleV [PyObj.ctxRef, PyObj.atom "v"]))
      = Except.ok (PyObj.tupleV [PyObj.ctxRef, PyObj.atom "v"])
  ∧ blobHasEmbeddedCtx
      (pickle_dumps (PyObj.tupleV [PyObj.ctxRef, PyObj.atom "v"])) = false
  ∧ blobHasCtxPid
      (pickle_dumps (PyObj.tupleV [PyObj.ctxRef, PyObj.atom "v"])) = true := by
  have h := C5_pickle_roundtrip (PyObj.tupleV [PyObj.ctxRef, PyObj.atom "v"])
  exact ⟨h.1, h.2.1, h.2.2 rfl⟩

/-- C6: with saving enabled, `Context.save_configuration` runs `db.close`
with the `SIG_IGN` disposition installed for SIGINT, and restores the
previously installed disposition afterwards — also when `db.close`
raises, whose error then propagates. -/
theorem C6_save_configuration_masks_sigint (closeRaises : Bool) (s : SigSt) :
    (save_configuration false closeRaises s).2.2 = some Handler.sig_ign
  ∧ (save_configuration false closeRaises s).2.1 = s
  ∧ (save_configuration false closeRaises s).1 =
      (if closeRaises then Except.error DbErr.dberror else Except.ok ()) :=
  ⟨rfl, rfl, rfl⟩

/-- C8 counterexample: with `ignore_error` set, a subprocess exiting with
the non-zero code 1 does not raise `ExecutionError`; `Context.execute`
returns the captured `(stdout, stderr)` pair normally, refuting the claim
that every non-zero exit raises. -/
theorem C8_execute_counterexample :
    context_execute false false false true "out" "err" 1
      = Except.ok ("out", "err")
  ∧ context_execute false false false true "out" "err" 1
      ≠ Except.error (ExecErr.executionError "out" "err" 1) := by
  constructor
  · rfl
  · intro h
    simp [context_execute, SIGINT] at h

/-- C8 (amended): for a subprocess that spawns and is not killed by
SIGINT, `Context.execute` raises `ExecutionTimedOut` when a timeout was
set and expired, raises `ExecutionError` on a non-zero exit code when
`ignore_error` is unset, and on success returns the `(stdout, stderr)`
pair (the exit code is not part of the return value). -/
theorem C8_execute_amended (timeoutSet timed_out ignore_error : Bool)
    (out err : String) (code : Int) (hki : code ≠ -SIGINT) :
    (timeoutSet = true ∧ timed_out = true →
      context_execute timeoutSet timed_out false ignore_error out err code
        = Except.error (ExecErr.executionTimedOut out err code))
  ∧ (¬(timeoutSet = true ∧ timed_out = true) → code ≠ 0 →
      ignore_error = false →
      context_execute timeoutSet timed_out false ignore_error out err code
        = Except.error (ExecErr.executionError out err code))
  ∧ (¬(timeoutSet = true ∧ timed_out = true) → code = 0 →
      context_execute timeoutSet timed_out false ignore_error out err code
        = Except.ok (out, err)) := by
  refine ⟨?_, ?_, ?_⟩
  · intro h
    simp [context_execute, hki, h]
  · intro h h0 hig
    simp [context_execute, hki, h, h0, hig]
  · intro h h0
    simp [context_execute, hki, h, h0, SIGINT]

/-- Witness for C8 (amended): concrete timed-out, failing and succeeding
executions. -/
theorem C8_execute_amended_witness :
    ((1 : Int) ≠ -SIGINT)
  ∧ context_execute true true false false "o" "e" 1
      = Except.error (ExecErr.executionTimedOut "o" "e" 1)
  ∧ context_execute false false false false "o" "e" 1
      = Except.error (ExecErr.executionError "o" "e" 1)
  ∧ context_execute false false false false "o" "e" 0
      = Except.ok ("o", "e") := by
  refine ⟨by decide, ?_, ?_, ?_⟩
  · exact (C8_execute_amended true true false "o" "e" 1 (by decide)).1
      ⟨rfl, rfl⟩
  · exact (C8_execute_amended false false false "o" "e" 1 (by decide)).2.1
      (by simp) (by decide) rfl
  · exact (C8_execute_amended false false false "o" "e" 0 (by decide)).2.2
      (by simp) rfl

/-- C7: for every run reaching the build phase, `main` returns 0 on
success, logs the error red and returns 1 when the build or a config
query or removal raises an `fbuild.Error`, lets any other exception
propagate, and on every one of these paths the database is saved before
`main` returns or re-raises. -/
theorem C7_main_exit_codes_and_save (db : Value) (msg : String) :
    ((mainBody Mode.build BuildOutcome.ok db).exit = Except.ok 0)
  ∧ ((mainBody Mode.build (BuildOutcome.fbuildError msg) db).exit
        = Except.ok 1
      ∧ (msg, "red")
          ∈ (mainBody Mode.build (BuildOutcome.fbuildError msg) db).logged)
  ∧ ((mainBody Mode.build (BuildOutcome.otherExc msg) db).exit
        = Except.error msg)
  ∧ (∀ keys, lookupPathPy db keys = Except.error PyErr.keyError →
      (mainBody (Mode.configQuery keys) BuildOutcome.ok db).exit
        = Except.ok 1)
  ∧ (∀ keys, removePath db keys = Except.error PyErr.keyError →
      (mainBody (Mode.configRemove keys) BuildOutcome.ok db).exit
        = Except.ok 1)
  ∧ (∀ mode outcome, (mainBody mode outcome db).saved = true) := by
  refine ⟨rfl, ⟨rfl, by simp [mainBody, mainTry]⟩, rfl, ?_, ?_, ?_⟩
  · intro keys h
    simp [mainBody, mainTry, h]
  · intro keys h
    simp [mainBody, mainTry, h]
  · intro mode outcome
    unfold mainBody
    rcases mainTry mode outcome db with e | p
    · cases e with
      | fbuildError m => rfl
      | otherExc m => rfl
    · obtain ⟨c, db2⟩ := p
      rfl

/-- The configuration database used by the C7 witness. -/
def c7db : Value := Value.dictV (fun k =>
  if k = "cc" then some (Value.leafV 4) else none)

/-- Witness for C7 at a concrete database, exercising the failing query
and removal branches. -/
theorem C7_main_exit_codes_and_save_witness :
    lookupPathPy c7db ["missing"] = Except.error PyErr.keyError
  ∧ (mainBody (Mode.configQuery ["missing"]) BuildOutcome.ok c7db).exit
      = Except.ok 1
  ∧ (mainBody (Mode.configRemove ["missing"]) BuildOutcome.ok c7db).exit
      = Except.ok 1
  ∧ (mainBody Mode.build BuildOutcome.ok c7db).exit = Except.ok 0
  ∧ (mainBody Mode.build (BuildOutcome.otherExc "boom") c7db).saved
      = true := by
  have h := C7_main_exit_codes_and_save c7db "boom"
  refine ⟨rfl, h.2.2.2.1 ["missing"] rfl, h.2.2.2.2.1 ["missing"] rfl,
    h.1, h.2.2.2.2.2 Mode.build (BuildOutcome.otherExc "boom")⟩

/-! ## Frame property of config-remove -/

/-- A successful `removePath db ks = ok db'` removes exactly the key path
`ks`: every path extending `ks` (itself included) is gone, the presence of
every path not extending `ks` is unchanged, and every path that is neither
an extension nor a proper prefix of `ks` looks up the very same value. -/
theorem removePath_frame (ks : List String) (db db' : Value)
    (h : removePath db ks = Except.ok db') :
    (∀ r, lookupPath db' (ks ++ r) = none)
  ∧ (∀ qs, (¬ ∃ r, qs = ks ++ r) →
      (lookupPath db' qs).isSome = (lookupPath db qs).isSome
    ∧ ((¬ ∃ r, r ≠ [] ∧ ks = qs ++ r) →
        lookupPath db' qs = lookupPath db qs)) := by
  induction ks generalizing db db' with
  | nil => simp [removePath] at h
  | cons k rest ih =>
    cases db with
    | leafV n => simp [removePath] at h
    | dictV f =>
      cases rest with
      | nil =>
        cases hf : f k with
        | none => simp [removePath, hf] at h
        | some v0 =>
          have hdb' : db' = Value.dictV (dictUpdate f k none) := by
            simp [removePath, hf] at h
            exact h.symm
          subst hdb'
          constructor
          · intro r
            simp [lookupPath, dictUpdate]
          · intro qs hq
            cases qs with
            | nil =>
              constructor
              · simp [lookupPath]
              · intro hq2
                exact absurd ⟨[k], by simp⟩ hq2
            | cons q qs' =>
              have hqk : q ≠ k := by
                intro he
                exact hq ⟨qs', by simp [he]⟩
              constructor
              · simp [lookupPath, dictUpdate, hqk]
              · intro _
                simp [lookupPath, dictUpdate, hqk]
      | cons r0 rest' =>
        cases hf : f k with
        | none => simp [removePath, hf] at h
        | some v =>
          cases hrm : removePath v (r0 :: rest') with
          | error e => simp [removePath, hf, hrm] at h
          | ok v' =>
            have hdb' : db' = Value.dictV (dictUpdate f k (some v')) := by
              simp [removePath, hf, hrm] at h
              exact h.symm
            subst hdb'
            obtain ⟨IH1, IH2⟩ := ih v v' hrm
            constructor
            · intro r
              simpa [lookupPath, dictUpdate] using IH1 r
            · intro qs hq
              cases qs with
              | nil =>
                constructor
                · simp [lookupPath]
                · intro hq2
                  exact absurd ⟨k :: r0 :: rest', by simp⟩ hq2
              | cons q qs' =>
                by_cases hqk : q = k
                · subst hqk
                  have hq' : ¬ ∃ r, qs' = (r0 :: rest') ++ r := by
                    rintro ⟨r, hr⟩
                    exact hq ⟨r, by simp [hr]⟩
                  obtain ⟨J1, J2⟩ := IH2 qs' hq'
                  constructor
                  · simpa [lookupPath, dictUpdate, hf] using J1
                  · intro hq2
                    have hq2' : ¬ ∃ r, r ≠ [] ∧ (r0 :: rest') = qs' ++ r := by
                      rintro ⟨r, hne, hr⟩
                      exact hq2 ⟨r, hne, by simp [hr]⟩
                    simpa [lookupPath, dictUpdate, hf] using J2 hq2'
                · constructor
                  · simp [lookupPath, dictUpdate, hqk]
                  · intro _
                    simp [lookupPath, dictUpdate, hqk]

/-- C9: with every key on the path present, `--config-remove "k1 … kn"`
deletes exactly the innermost key from its parent dictionary — every path
extending the removed one is gone, the presence and value of every other
key at every nesting level is unchanged — the change is kept in the saved
database and the driver exits with status 0; when a key on the path is
missing, the database is left unchanged and the driver exits with
status 1. -/
theorem C9_config_remove (db : Value) (ks : List String) :
    (∀ db', removePath db ks = Except.ok db' →
        (mainBody (Mode.configRemove ks) BuildOutcome.ok db).exit
          = Except.ok 0
      ∧ (mainBody (Mode.configRemove ks) BuildOutcome.ok db).db = db'
      ∧ (mainBody (Mode.configRemove ks) BuildOutcome.ok db).saved = true
      ∧ (∀ r, lookupPath db' (ks ++ r) = none)
      ∧ (∀ qs, (¬ ∃ r, qs = ks ++ r) →
          (lookupPath db' qs).isSome = (lookupPath db qs).isSome
        ∧ ((¬ ∃ r, r ≠ [] ∧ ks = qs ++ r) →
            lookupPath db' qs = lookupPath db qs)))
  ∧ (removePath db ks = Except.error PyErr.keyError →
        (mainBody (Mode.configRemove ks) BuildOutcome.ok db).exit
          = Except.ok 1
      ∧ (mainBody (Mode.configRemove ks) BuildOutcome.ok db).db = db
      ∧ (mainBody (Mode.configRemove ks) BuildOutcome.ok db).saved
          = true) := by
  constructor
  · intro db' h
    obtain ⟨F1, F2⟩ := removePath_frame ks db db' h
    exact ⟨by simp [mainBody, mainTry, h], by simp [mainBody, mainTry, h],
      by simp [mainBody, mainTry, h], F1, F2⟩
  · intro h
    exact ⟨by simp [mainBody, mainTry, h], by simp [mainBody, mainTry, h],
      by simp [mainBody, mainTry, h]⟩

/-- The configuration database used by the C9 witness: two nested keys
under `"k1"` plus a sibling top-level key. -/
def c9db : Value := Value.dictV (fun k =>
  if k = "k1" then some (Value.dictV (fun k2 =>
    if k2 = "k2" then some (Value.leafV 1)
    else if k2 = "sib" then some (Value.leafV 2) else none))
  else if k = "top" then some (Value.leafV 3) else none)

/-- Witness for C9: removing `"k1 k2"` from `c9db` succeeds with exit 0,
the removed path is gone from the resulting database, the sibling keys
survive unchanged, and removing the missing `"k1 gone"` exits 1 leaving
the database untouched. -/
theorem C9_config_remove_witness :
    (mainBody (Mode.configRemove ["k1", "k2"]) BuildOutcome.ok c9db).exit
      = Except.ok 0
  ∧ lookupPath
      (mainBody (Mode.configRemove ["k1", "k2"]) BuildOutcome.ok c9db).db
      ["k1", "k2"] = none
  ∧ lookupPath
      (mainBody (Mode.configRemove ["k1", "k2"]) BuildOutcome.ok c9db).db
      ["k1", "sib"] = lookupPath c9db ["k1", "sib"]
  ∧ lookupPath
      (mainBody (Mode.configRemove ["k1", "k2"]) BuildOutcome.ok c9db).db
      ["top"] = lookupPath c9db ["top"]
  ∧ (mainBody (Mode.configRemove ["k1", "gone"]) BuildOutcome.ok c9db).exit
      = Except.ok 1
  ∧ (mainBody (Mode.configRemove ["k1", "gone"]) BuildOutcome.ok c9db).db
      = c9db := by
  have h := C9_config_remove c9db ["k1", "k2"]
  have hok := h.1 _ rfl
  obtain ⟨e0, edb, _, F1, F2⟩ := hok
  have hmiss := (C9_config_remove c9db ["k1", "gone"]).2 rfl
  refine ⟨e0, ?_, ?_, ?_, hmiss.1, hmiss.2.1⟩
  · rw [edb]
    exact F1 []
  · rw [edb]
    refine (F2 ["k1", "sib"] ?_).2 ?_
    · rintro ⟨r, hr⟩
      simp at hr
    · rintro ⟨r, hne, hr⟩
      simp at hr
  · rw [edb]
    refine (F2 ["top"] ?_).2 ?_
    · rintro ⟨r, hr⟩
      simp at hr
    · rintro ⟨r, hne, hr⟩
      simp at hr

/-! ## Frame lemmas for the dirtiness detector -/

/-- The call-level tables agree: everything except the file table. -/
def callFrame (s s' : DBSt) : Prop :=
  s'.functions = s.functions ∧ s'.calls = s.calls
  ∧ s'.nextCallId = s.nextCallId ∧ s'.callFiles = s.callFiles
  ∧ s'.extSrcs = s.extSrcs ∧ s'.extDsts = s.extDsts

theorem callFrame_refl (s : DBSt) : callFrame s s :=
  ⟨rfl, rfl, rfl, rfl, rfl, rfl⟩

theorem callFrame_trans {a b c : DBSt} (h1 : callFrame a b)
    (h2 : callFrame b c) : callFrame a c :=
  ⟨h2.1.trans h1.1, h2.2.1.trans h1.2.1, h2.2.2.1.trans h1.2.2.1,
    h2.2.2.2.1.trans h1.2.2.2.1, h2.2.2.2.2.1.trans h1.2.2.2.2.1,
    h2.2.2.2.2.2.trans h1.2.2.2.2.2⟩

theorem add_file_callFrame (fs : FS) (now : ℚ) (f : String) (s : DBSt) :
    callFrame s (add_file fs now f s).2 := by
  unfold add_file
  dsimp only
  repeat' split
  all_goals exact ⟨rfl, rfl, rfl, rfl, rfl, rfl⟩

theorem check_call_file_snd (fs : FS) (now : ℚ) (cid : Option Nat)
    (fn f : String) (s : DBSt) :
    (check_call_file fs now cid fn f s).2 = (add_file fs now f s).2 := by
  unfold check_call_file
  rcases hA : add_file fs now f s with ⟨res, s1⟩
  rcases res with e | ⟨d, mm, dg⟩
  · rfl
  · dsimp only
    rcases cid with _ | c
    · rfl
    · dsimp only
      rcases hF : find_call_file s1 c fn f with _ | old
      · rfl
      · dsimp only
        split <;> rfl

theorem check_call_file_callFrame (fs : FS) (now : ℚ) (cid : Option Nat)
    (fn f : String) (s : DBSt) :
    callFrame s (check_call_file fs now cid fn f s).2 := by
  rw [check_call_file_snd]
  exact add_file_callFrame fs now f s

theorem check_call_files_callFrame (fs : FS) (now : ℚ) (cid : Option Nat)
    (fn : String) (l : List String) :
    ∀ (s : DBSt), callFrame s (check_call_files fs now cid fn l s).2 := by
  induction l with
  | nil => intro s; exact callFrame_refl s
  | cons f rest ih =>
    intro s
    unfold check_call_files
    rcases hc : check_call_file fs now cid fn f s with ⟨res, s1⟩
    have h1 : callFrame s s1 := by
      have h := check_call_file_callFrame fs now cid fn f s
      rwa [hc] at h
    rcases res with e | ⟨d, dg⟩
    · exact h1
    · dsimp only
      rcases hr : check_call_files fs now cid fn rest s1 with ⟨res2, s2⟩
      have h2 : callFrame s1 s2 := by
        have h := ih s1
        rwa [hr] at h
      rcases res2 with e2 | ds
      · exact callFrame_trans h1 h2
      · exact callFrame_trans h1 h2

theorem check_external_loop_callFrame (fs : FS) (now : ℚ) (cid : Option Nat)
    (fn : String) (l : List String) :
    ∀ (s : DBSt), callFrame s (check_external_loop fs now cid fn l s).2 := by
  induction l with
  | nil => intro s; exact callFrame_refl s
  | cons src rest ih =>
    intro s
    unfold check_external_loop
    rcases hc : check_call_file fs now cid fn src s with ⟨res, s1⟩
    have h1 : callFrame s s1 := by
      have h := check_call_file_callFrame fs now cid fn src s
      rwa [hc] at h
    have h2 : callFrame s1 (check_external_loop fs now cid fn rest s1).2 :=
      ih s1
    rcases res with e | ⟨d, dg⟩
    · dsimp only
      rcases hr : check_external_loop fs now cid fn rest s1 with ⟨⟨d2, ds⟩, s2⟩
      rw [hr] at h2
      exact callFrame_trans h1 h2
    · dsimp only
      rcases hr : check_external_loop fs now cid fn rest s1 with ⟨⟨d2, ds⟩, s2⟩
      rw [hr] at h2
      exact callFrame_trans h1 h2

theorem check_external_files_callFrame (fs : FS) (now : ℚ) (cid : Option Nat)
    (fn : String) (s : DBSt) :
    callFrame s (check_external_files fs now cid fn s).2 := by
  have h := check_external_loop_callFrame fs now cid fn
    (find_external_srcs s cid fn) s
  simp only [check_external_files]
  rcases hl : check_external_loop fs now cid fn
    (find_external_srcs s cid fn) s with ⟨⟨dirty, ds⟩, s2⟩
  rw [hl] at h
  exact h

/-- C10: `Backend.prepare` never writes to the function, call, call-file
or external-deps tables — on every invocation the call-level records of
the resulting state are exactly those of the input state, so only the
file table (refreshed through `add_file`) can change. -/
theorem C10_prepare_frame (fs : FS) (now : ℚ) (fn fg bound : String)
    (srcs dsts : List String) (s : DBSt) :
    callFrame s (prepare fs now fn fg bound srcs dsts s).2 := by
  unfold prepare
  dsimp only
  rcases hc : check_call_files fs now ((find_call s fn bound).map Prod.fst)
    fn srcs s with ⟨res, s1⟩
  have h1 : callFrame s s1 := by
    have h := check_call_files_callFrame fs now
      ((find_call s fn bound).map Prod.fst) fn srcs s
    rwa [hc] at h
  rcases res with e | ds
  · exact h1
  · dsimp only
    have h2 : callFrame s1 (check_external_files fs now
        ((find_call s fn bound).map Prod.fst) fn s1).2 :=
      check_external_files_callFrame fs now _ fn s1
    rcases hx : check_external_files fs now
      ((find_call s fn bound).map Prod.fst) fn s1 with ⟨⟨a, b, c, d⟩, s2⟩
    rw [hx] at h2
    exact callFrame_trans h1 h2

theorem find_call_file_eq_of_callFrame {s s' : DBSt} (h : callFrame s s')
    (c : Nat) (fn f : String) :
    find_call_file s' c fn f = find_call_file s c fn f := by
  unfold find_call_file
  rw [h.2.2.2.1]

/-! ## C1: check_call_file -/

/-- The filesystem of the C1 counterexample: `"a"` has content digest
`"c2"` and mtime 0. -/
def c1FS : FS := fun p => if p = "a" then some ((0 : ℚ), "c2") else none

/-- The database of the C1 counterexample: the call-file record for call 7
already holds the current digest `"c2"`, while the file table still holds
a stale record from an observation of an older content `"c1"`. -/
def c1St : DBSt :=
  { functions := [], calls := [], nextCallId := 0,
    callFiles := [((7, "fn", "a"), "c2")],
    extSrcs := [], extDsts := [],
    files := [("a", ((5 : ℚ), "c1"))] }

/-- C1 counterexample: the stored call-file digest (`"c2"`) equals the
newly observed digest, yet `check_call_file` reports the file dirty,
because it passes through the `add_file` changed flag (the file table was
stale) instead of returning not-dirty. -/
theorem C1_counterexample :
    find_call_file c1St 7 "fn" "a" = some "c2"
  ∧ (add_file c1FS 10 "a" c1St).1 = Except.ok (true, 0, "c2")
  ∧ (check_call_file c1FS 10 (some 7) "fn" "a" c1St).1
      = Except.ok (true, "c2") :=
  ⟨rfl, rfl, rfl⟩

/-- C1 (amended): when the call-id is absent the file is reported dirty;
when the stored call-file digest is absent or differs from the newly
observed digest the file is reported dirty; and when the stored digest
equals the newly observed digest the reported dirtiness is the changed
flag returned by the file observation (`add_file`), not necessarily
false. -/
theorem C1_check_call_file_amended (fs : FS) (now : ℚ) (cid : Option Nat)
    (fn f : String) (s : DBSt) (ch : Bool) (m : ℚ) (d : String) (s1 : DBSt)
    (h : add_file fs now f s = (Except.ok (ch, m, d), s1)) :
    (cid = none → (check_call_file fs now cid fn f s).1 = Except.ok (true, d))
  ∧ (∀ c, cid = some c → find_call_file s c fn f = none →
      (check_call_file fs now cid fn f s).1 = Except.ok (true, d))
  ∧ (∀ c old, cid = some c → find_call_file s c fn f = some old → old ≠ d →
      (check_call_file fs now cid fn f s).1 = Except.ok (true, d))
  ∧ (∀ c, cid = some c → find_call_file s c fn f = some d →
      (check_call_file fs now cid fn f s).1 = Except.ok (ch, d)) := by
  have hcf : ∀ c, find_call_file s1 c fn f = find_call_file s c fn f := by
    intro c
    have hframe := add_file_callFrame fs now f s
    rw [h] at hframe
    exact find_call_file_eq_of_callFrame hframe c fn f
  refine ⟨?_, ?_, ?_, ?_⟩
  · rintro rfl
    unfold check_call_file
    rw [h]
  · rintro c rfl hnone
    unfold check_call_file
    rw [h]
    have hn : find_call_file s1 c fn f = none := (hcf c).trans hnone
    dsimp only
    rw [hn]
  · rintro c old rfl hsome hne
    unfold check_call_file
    rw [h]
    have ho : find_call_file s1 c fn f = some old := (hcf c).trans hsome
    dsimp only
    rw [ho]
    dsimp only
    rw [if_neg (fun hh => hne hh.symm)]
  · rintro c rfl hsome
    unfold check_call_file
    rw [h]
    have ho : find_call_file s1 c fn f = some d := (hcf c).trans hsome
    dsimp only
    rw [ho]
    dsimp only
    rw [if_pos rfl]

/-- The filesystem of the C1 witness. -/
def c1wFS : FS := fun p => if p = "a" then some ((0 : ℚ), "x") else none

/-- The empty database of the C1 witness. -/
def c1wSt : DBSt :=
  { functions := [], calls := [], nextCallId := 0, callFiles := [],
    extSrcs := [], extDsts := [], files := [] }

/-- The database after the C1 witness's observation of `"a"`. -/
def c1wSt1 : DBSt :=
  { functions := [], calls := [], nextCallId := 0, callFiles := [],
    extSrcs := [], extDsts := [], files := [("a", ((0 : ℚ), "x"))] }

/-- The database after the C1 counterexample state's observation. -/
def c1St1 : DBSt :=
  { functions := [], calls := [], nextCallId := 0,
    callFiles := [((7, "fn", "a"), "c2")],
    extSrcs := [], extDsts := [],
    files := [("a", ((0 : ℚ), "c2"))] }

/-- Witness for C1 (amended) on concrete inputs: an absent call-id is
dirty, and an equal stored digest passes the `add_file` flag through. -/
theorem C1_check_call_file_amended_witness :
    add_file c1wFS 2 "a" c1wSt = (Except.ok (true, 0, "x"), c1wSt1)
  ∧ (check_call_file c1wFS 2 none "fn" "a" c1wSt).1 = Except.ok (true, "x")
  ∧ add_file c1FS 10 "a" c1St = (Except.ok (true, 0, "c2"), c1St1)
  ∧ find_call_file c1St 7 "fn" "a" = some "c2"
  ∧ (check_call_file c1FS 10 (some 7) "fn" "a" c1St).1
      = Except.ok (true, "c2") := by
  have h1 := C1_check_call_file_amended c1wFS 2 none "fn" "a" c1wSt
    true 0 "x" c1wSt1 rfl
  have h2 := C1_check_call_file_amended c1FS 10 (some 7) "fn" "a" c1St
    true 0 "c2" c1St1 rfl
  exact ⟨rfl, h1.1 rfl, rfl, rfl, h2.2.2.2 7 rfl rfl⟩

/-! ## C3: repeated observation of an unchanged file -/

theorem find_file_save_file (s : DBSt) (f : String) (m : ℚ) (d : String) :
    find_file (save_file s f m d) f = some (m, d) := by
  unfold find_file save_file
  exact alookup_aset_self _ _ _

theorem add_file_fast (fs : FS) (t : ℚ) (f : String) (st : DBSt) (m : ℚ)
    (c d : String) (hfs : fs f = some (m, c))
    (hrec : find_file st f = some (m, d)) (ht : t - m > 1) :
    add_file fs t f st = (Except.ok (false, m, d), st) := by
  simp only [add_file, hfs, hrec]
  rw [if_pos ⟨trivial, ht⟩]

theorem add_file_stable (fs : FS) (t : ℚ) (f : String) (st : DBSt) (m : ℚ)
    (c d : String) (hfs : fs f = some (m, c))
    (hrec : find_file st f = some (m, d)) (hcd : c = d ∨ t - m > 1) :
    (add_file fs t f st).1 = Except.ok (false, m, d) := by
  by_cases ht : t - m > 1
  · rw [add_file_fast fs t f st m c d hfs hrec ht]
  · rcases hcd with hcd | h2
    · subst hcd
      simp only [add_file, hfs, hrec]
      rw [if_neg (fun hh => ht hh.2), if_pos trivial]
    · exact absurd h2 ht

/-- C3: a second observation of a file whose content and mtime did not
change between two successive `add_file` calls returns
`changed = false` with the digest recorded by the first call; and
whenever a record matches the current mtime and more than 1.0 seconds
have elapsed since that mtime, the stored digest is returned unchanged
for any file content — the content is not read. -/
theorem C3_add_file_observe (fs : FS) (t1 t2 : ℚ) (f : String) (s : DBSt)
    (m : ℚ) (c : String) (ch1 : Bool) (d1 : String) (s1 : DBSt)
    (hfs : fs f = some (m, c)) (ht : t1 ≤ t2)
    (h1 : add_file fs t1 f s = (Except.ok (ch1, m, d1), s1)) :
    (add_file fs t2 f s1).1 = Except.ok (false, m, d1)
  ∧ (∀ (fs' : FS) (c' : String) (st : DBSt) (d : String),
      fs' f = some (m, c') → find_file st f = some (m, d) → t2 - m > 1 →
      add_file fs' t2 f st = (Except.ok (false, m, d), st)) := by
  constructor
  · simp only [add_file, hfs] at h1
    rcases hff : find_file s f with _ | ⟨om, od⟩
    · rw [hff] at h1
      dsimp only at h1
      simp only [Prod.mk.injEq, Except.ok.injEq] at h1
      obtain ⟨⟨hch, hm, hd⟩, hs⟩ := h1
      refine add_file_stable fs t2 f s1 m c d1 hfs ?_ (Or.inl hd)
      rw [← hs, ← hd]
      exact find_file_save_file _ f m c
    · rw [hff] at h1
      dsimp only at h1
      by_cases hfast : m = om ∧ t1 - m > 1
      · rw [if_pos hfast] at h1
        simp only [Prod.mk.injEq, Except.ok.injEq] at h1
        obtain ⟨⟨hch, hm, hd⟩, hs⟩ := h1
        refine add_file_stable fs t2 f s1 m c d1 hfs ?_ (Or.inr ?_)
        · rw [← hs, hff, hfast.1, hd]
        · have := hfast.2
          linarith
      · rw [if_neg hfast] at h1
        by_cases hcd : c = od
        · rw [if_pos hcd] at h1
          simp only [Prod.mk.injEq, Except.ok.injEq] at h1
          obtain ⟨⟨hch, hm, hd⟩, hs⟩ := h1
          refine add_file_stable fs t2 f s1 m c d1 hfs ?_ (Or.inl hd)
          rw [← hs, ← hd]
          exact find_file_save_file _ f m c
        · rw [if_neg hcd] at h1
          simp only [Prod.mk.injEq, Except.ok.injEq] at h1
          obtain ⟨⟨hch, hm, hd⟩, hs⟩ := h1
          refine add_file_stable fs t2 f s1 m c d1 hfs ?_ (Or.inl hd)
          rw [← hs, ← hd]
          exact find_file_save_file _ f m c
  · intro fs' c' st d hfs' hrec ht2
    exact add_file_fast fs' t2 f st m c' d hfs' hrec ht2

/-- The filesystem of the C3 witness. -/
def c3FS : FS := fun p => if p = "a" then some ((0 : ℚ), "x") else none

/-- The empty database of the C3 witness. -/
def c3St : DBSt :=
  { functions := [], calls := [], nextCallId := 0, callFiles := [],
    extSrcs := [], extDsts := [], files := [] }

/-- The database after the C3 witness's first observation. -/
def c3St1 : DBSt :=
  { functions := [], calls := [], nextCallId := 0, callFiles := [],
    extSrcs := [], extDsts := [], files := [("a", ((0 : ℚ), "x"))] }

/-- Witness for C3 on a concrete filesystem: the second observation of
the unchanged `"a"` is clean with the first call's digest, and the fast
path leaves the state untouched. -/
theorem C3_add_file_observe_witness :
    c3FS "a" = some (0, "x")
  ∧ ((2 : ℚ) ≤ 3)
  ∧ add_file c3FS 2 "a" c3St = (Except.ok (true, 0, "x"), c3St1)
  ∧ (add_file c3FS 3 "a" c3St1).1 = Except.ok (false, 0, "x")
  ∧ add_file c3FS 3 "a" c3St1 = (Except.ok (false, 0, "x"), c3St1) := by
  have h := C3_add_file_observe c3FS 2 3 "a" c3St 0 "x" true "x" c3St1
    rfl (by norm_num) rfl
  exact ⟨rfl, by norm_num, rfl, h.1,
    h.2 c3FS "x" c3St1 "x" rfl rfl (by norm_num)⟩

/-! ## C4: check_external_files -/

theorem add_file_congr (fs fs' : FS) (now : ℚ) (f : String) (s : DBSt)
    (h : fs' f = fs f) : add_file fs' now f s = add_file fs now f s := by
  unfold add_file
  rw [h]

theorem check_call_file_congr (fs fs' : FS) (now : ℚ) (cid : Option Nat)
    (fn f : String) (s : DBSt) (h : fs' f = fs f) :
    check_call_file fs' now cid fn f s = check_call_file fs now cid fn f s := by
  unfold check_call_file
  rw [add_file_congr fs fs' now f s h]

theorem check_call_file_fs_none (fs : FS) (now : ℚ) (cid : Option Nat)
    (fn f : String) (s : DBSt) (h : fs f = none) :
    check_call_file fs now cid fn f s = (Except.error OSErr.oserror, s) := by
  unfold check_call_file add_file
  rw [h]

theorem add_file_ok_of_some (fs : FS) (now : ℚ) (f : String) (s : DBSt)
    (m : ℚ) (c : String) (h : fs f = some (m, c)) :
    ∃ tr s', add_file fs now f s = (Except.ok tr, s') := by
  unfold add_file
  rw [h]
  dsimp only
  rcases find_file s f with _ | ⟨om, od⟩
  · exact ⟨_, _, rfl⟩
  · dsimp only
    by_cases h1 : m = om ∧ now - m > 1
    · rw [if_pos h1]
      exact ⟨_, _, rfl⟩
    · rw [if_neg h1]
      by_cases h2 : c = od
      · rw [if_pos h2]
        exact ⟨_, _, rfl⟩
      · rw [if_neg h2]
        exact ⟨_, _, rfl⟩

theorem check_call_file_ok_of_some (fs : FS) (now : ℚ) (cid : Option Nat)
    (fn f : String) (s : DBSt) (m : ℚ) (c : String)
    (h : fs f = some (m, c)) :
    ∃ pr s', check_call_file fs now cid fn f s = (Except.ok pr, s') := by
  obtain ⟨⟨d, mm, dg⟩, s1, hA⟩ := add_file_ok_of_some fs now f s m c h
  unfold check_call_file
  rw [hA]
  dsimp only
  rcases cid with _ | cI
  · exact ⟨_, _, rfl⟩
  · dsimp only
    rcases find_call_file s1 cI fn f with _ | old
    · exact ⟨_, _, rfl⟩
    · dsimp only
      by_cases hd : dg = old
      · rw [if_pos hd]
        exact ⟨_, _, rfl⟩
      · rw [if_neg hd]
        exact ⟨_, _, rfl⟩

theorem check_external_loop_dirty (fs : FS) (now : ℚ) (cid : Option Nat)
    (fn : String) (l : List String) :
    ∀ s : DBSt,
      ((check_external_loop fs now cid fn l s).1.1 = true ↔
        ∃ p ∈ l, fs p = none) := by
  induction l with
  | nil =>
    intro s
    simp [check_external_loop]
  | cons src rest ih =>
    intro s
    unfold check_external_loop
    rcases hfsrc : fs src with _ | ⟨m, c⟩
    · rw [check_call_file_fs_none fs now cid fn src s hfsrc]
      dsimp only
      rcases hr : check_external_loop fs now cid fn rest s with ⟨⟨d2, ds⟩, s2⟩
      exact ⟨fun _ => ⟨src, by simp, hfsrc⟩, fun _ => rfl⟩
    · obtain ⟨⟨d, dg⟩, s1, hc⟩ :=
        check_call_file_ok_of_some fs now cid fn src s m c hfsrc
      rw [hc]
      dsimp only
      rcases hr : check_external_loop fs now cid fn rest s1 with ⟨⟨d2, ds⟩, s2⟩
      have ihr := ih s1
      rw [hr] at ihr
      dsimp only at ihr ⊢
      constructor
      · intro hd2
        obtain ⟨p, hp, hfp⟩ := ihr.mp hd2
        exact ⟨p, List.mem_cons_of_mem _ hp, hfp⟩
      · rintro ⟨p, hp, hfp⟩
        rcases List.mem_cons.mp hp with rfl | hp2
        · rw [hfsrc] at hfp
          cases hfp
        · exact ihr.mpr ⟨p, hp2, hfp⟩

theorem check_external_loop_congr (fs fs' : FS) (now : ℚ) (cid : Option Nat)
    (fn : String) (l : List String) (h : ∀ p ∈ l, fs' p = fs p) :
    ∀ s : DBSt,
      check_external_loop fs' now cid fn l s
        = check_external_loop fs now cid fn l s := by
  induction l with
  | nil => intro s; rfl
  | cons src rest ih =>
    intro s
    unfold check_external_loop
    rw [check_call_file_congr fs fs' now cid fn src s (h src (by simp))]
    rcases hc : check_call_file fs now cid fn src s with ⟨res, s1⟩
    rcases res with e | ⟨d, dg⟩
    · dsimp only
      rw [ih (fun p hp => h p (List.mem_cons_of_mem _ hp)) s1]
    · dsimp only
      rw [ih (fun p hp => h p (List.mem_cons_of_mem _ hp)) s1]

/-- C4: `check_external_files` reports `external_dirty = true` exactly
when at least one recorded external source path cannot be stat'd (its
observation raises `OSError`); the recorded external source and
destination path sets are returned as recorded; and the result depends on
the filesystem only at the recorded external sources — the destinations
are never read, digested or checked for existence. -/
theorem C4_check_external_files (fs : FS) (now : ℚ) (cid : Option Nat)
    (fn : String) (s : DBSt) :
    ((check_external_files fs now cid fn s).1.1 = true ↔
      ∃ p ∈ find_external_srcs s cid fn, fs p = none)
  ∧ (check_external_files fs now cid fn s).1.2.1 = find_external_srcs s cid fn
  ∧ (check_external_files fs now cid fn s).1.2.2.1
      = find_external_dsts s cid fn
  ∧ (∀ fs' : FS, (∀ p ∈ find_external_srcs s cid fn, fs' p = fs p) →
      check_external_files fs' now cid fn s
        = check_external_files fs now cid fn s) := by
  refine ⟨?_, ?_, ?_, ?_⟩
  · have h := check_external_loop_dirty fs now cid fn
      (find_external_srcs s cid fn) s
    simp only [check_external_files]
    rcases hl : check_external_loop fs now cid fn
      (find_external_srcs s cid fn) s with ⟨⟨dirty, ds⟩, s2⟩
    rw [hl] at h
    exact h
  · simp only [check_external_files]
  · simp only [check_external_files]
  · intro fs' hagree
    simp only [check_external_files]
    rw [check_external_loop_congr fs fs' now cid fn
      (find_external_srcs s cid fn) hagree s]

/-- The filesystem of the C4 witness: the external source `"p"` exists,
the external source `"q"` is missing. -/
def c4FS : FS := fun p => if p = "p" then some ((0 : ℚ), "x") else none

/-- The database of the C4 witness: call 3 recorded external sources
`["p", "q"]` and the external destination `["d1"]`. -/
def c4St : DBSt :=
  { functions := [], calls := [], nextCallId := 0, callFiles := [],
    extSrcs := [((3, "fn"), ["p", "q"])],
    extDsts := [((3, "fn"), ["d1"])],
    files := [] }

/-- Witness for C4: the missing source `"q"` makes the check dirty, the
destinations come back as recorded, and changing the filesystem at the
destination `"d1"` does not change the result. -/
theorem C4_check_external_files_witness :
    (check_external_files c4FS 5 (some 3) "fn" c4St).1.1 = true
  ∧ (check_external_files c4FS 5 (some 3) "fn" c4St).1.2.2.1 = ["d1"]
  ∧ check_external_files
      (fun p => if p = "d1" then some ((0 : ℚ), "y") else c4FS p)
      5 (some 3) "fn" c4St
      = check_external_files c4FS 5 (some 3) "fn" c4St := by
  have h := C4_check_external_files c4FS 5 (some 3) "fn" c4St
  have hsrcs : find_external_srcs c4St (some 3) "fn" = ["p", "q"] := rfl
  refine ⟨h.1.mpr ⟨"q", ?_, rfl⟩, ?_, ?_⟩
  · rw [hsrcs]
    simp
  · rw [h.2.2.1]
    rfl
  · refine h.2.2.2 _ ?_
    intro p hp
    rw [hsrcs] at hp
    rcases List.mem_cons.mp hp with rfl | hp2
    · rfl
    · rcases List.mem_cons.mp hp2 with rfl | hp3
      · rfl
      · cases hp3

/-! ## C2: Backend.cache -/

/-- Unfolding of `Backend.cache` into the save pipeline. -/
theorem cache_def (s : DBSt) (fd : Bool) (fn fg : String) (cid : Option Nat)
    (bound result : String) (cfds : List (String × String))
    (esrcs edsts : List String) (edigs : List (String × String)) :
    cache s fd fn fg cid bound result cfds esrcs edsts edigs =
      save_external_files
        (save_call_files
          (save_call (if fd then save_function s fn fg else s)
            fn cid bound result).2
          (save_call (if fd then save_function s fn fg else s)
            fn cid bound result).1
          fn cfds)
        fn
        (save_call (if fd then save_function s fn fg else s)
          fn cid bound result).1
        esrcs edsts edigs := rfl

/-- Unfolding of `save_external_files` into the call-file fold plus the
two path-set writes. -/
theorem save_external_files_def (s : DBSt) (fn : String) (cid : Nat)
    (srcs dsts : List String) (digs : List (String × String)) :
    save_external_files s fn cid srcs dsts digs =
      { save_call_files s cid fn digs with
        extSrcs := aset (save_call_files s cid fn digs).extSrcs (cid, fn) srcs
        extDsts :=
          aset (save_call_files s cid fn digs).extDsts (cid, fn) dsts } := rfl

theorem save_function_nextCallId (s : DBSt) (fn d : String) :
    (save_function s fn d).nextCallId = s.nextCallId := by
  unfold save_function
  dsimp only
  split <;> rfl

theorem find_function_save_function (s : DBSt) (fn d : String) :
    find_function (save_function s fn d) fn = some d := by
  unfold find_function save_function
  dsimp only
  split <;> exact alookup_aset_self _ _ _

theorem save_call_fst (s : DBSt) (fn : String) (cid : Option Nat)
    (bound r : String) :
    (save_call s fn cid bound r).1 = cid.getD s.nextCallId := by
  cases cid <;> rfl

theorem find_call_save_call (s : DBSt) (fn : String) (cid : Option Nat)
    (bound r : String) :
    find_call (save_call s fn cid bound r).2 fn bound
      = some ((save_call s fn cid bound r).1, r) := by
  cases cid with
  | none => exact alookup_aset_self _ _ _
  | some c => exact alookup_aset_self _ _ _

theorem save_call_files_cons (s : DBSt) (cid : Nat) (fn : String)
    (p : String × String) (rest : List (String × String)) :
    save_call_files s cid fn (p :: rest)
      = save_call_files (save_call_file s cid fn p.1 p.2) cid fn rest := rfl

theorem save_call_files_fields (cid : Nat) (fn : String)
    (digests : List (String × String)) :
    ∀ s : DBSt,
      (save_call_files s cid fn digests).functions = s.functions
    ∧ (save_call_files s cid fn digests).calls = s.calls
    ∧ (save_call_files s cid fn digests).nextCallId = s.nextCallId
    ∧ (save_call_files s cid fn digests).extSrcs = s.extSrcs
    ∧ (save_call_files s cid fn digests).extDsts = s.extDsts := by
  induction digests with
  | nil => intro s; exact ⟨rfl, rfl, rfl, rfl, rfl⟩
  | cons p rest ih =>
    intro s
    exact ih (save_call_file s cid fn p.1 p.2)

theorem find_call_file_save_call_file_self (s : DBSt) (cid : Nat)
    (fn f d : String) :
    find_call_file (save_call_file s cid fn f d) cid fn f = some d :=
  alookup_aset_self _ _ _

theorem find_call_file_save_call_file_ne (s : DBSt) (cid cid' : Nat)
    (fn fn' f f' d : String) (h : (cid', fn', f') ≠ (cid, fn, f)) :
    find_call_file (save_call_file s cid fn f d) cid' fn' f'
      = find_call_file s cid' fn' f' :=
  alookup_aset_ne _ _ _ _ h

theorem save_call_files_miss (cid cid' : Nat) (fn fn' : String)
    (digests : List (String × String)) :
    ∀ (s : DBSt) (f : String), f ∉ digests.map Prod.fst →
      find_call_file (save_call_files s cid fn digests) cid' fn' f
        = find_call_file s cid' fn' f := by
  induction digests with
  | nil => intro s f _; rfl
  | cons p rest ih =>
    intro s f h
    rw [save_call_files_cons,
      ih (save_call_file s cid fn p.1 p.2) f (fun hm => h (by simp [hm]))]
    refine find_call_file_save_call_file_ne s cid cid' fn fn' p.1 f p.2 ?_
    intro he
    have hf : f = p.1 := congrArg (fun t => t.2.2) he
    exact h (by simp [hf])

theorem save_call_files_hit (cid : Nat) (fn : String)
    (digests : List (String × String)) :
    ∀ (s : DBSt) (f d : String), (f, d) ∈ digests →
      (digests.map Prod.fst).Nodup →
      find_call_file (save_call_files s cid fn digests) cid fn f = some d := by
  induction digests with
  | nil =>
    intro s f d h _
    cases h
  | cons p rest ih =>
    intro s f d hmem hnd
    rcases List.mem_cons.mp hmem with heq | hmem2
    · have hnotin : f ∉ rest.map Prod.fst := by
        have h1 := (List.nodup_cons.mp hnd).1
        rw [← heq] at h1
        exact h1
      rw [save_call_files_cons,
        save_call_files_miss cid cid fn fn rest _ f hnotin, ← heq]
      exact find_call_file_save_call_file_self s cid fn f d
    · rw [save_call_files_cons]
      exact ih _ f d hmem2 (List.nodup_cons.mp hnd).2

/-- C2: `Backend.cache` persists the function digest when the function was
dirty, persists the call via `save_call` obtaining the final call-id
(`s.nextCallId`, a fresh id, when the prior call-id was absent; the prior
id otherwise), and records every dirty call-file digest, every external
digest and the external source and destination path sets under that final
call-id. -/
theorem C2_cache_records (s : DBSt) (fd : Bool) (fn fg : String)
    (cid : Option Nat) (bound result : String)
    (cfds : List (String × String)) (esrcs edsts : List String)
    (edigs : List (String × String))
    (hnd : (((cfds ++ edigs).map Prod.fst)).Nodup) :
    (fd = true →
      find_function (cache s fd fn fg cid bound result cfds esrcs edsts edigs)
        fn = some fg)
  ∧ find_call (cache s fd fn fg cid bound result cfds esrcs edsts edigs)
      fn bound = some (cid.getD s.nextCallId, result)
  ∧ (∀ f dd, (f, dd) ∈ cfds →
      find_call_file
        (cache s fd fn fg cid bound result cfds esrcs edsts edigs)
        (cid.getD s.nextCallId) fn f = some dd)
  ∧ (∀ f dd, (f, dd) ∈ edigs →
      find_call_file
        (cache s fd fn fg cid bound result cfds esrcs edsts edigs)
        (cid.getD s.nextCallId) fn f = some dd)
  ∧ alookup
      (cache s fd fn fg cid bound result cfds esrcs edsts edigs).extSrcs
      (cid.getD s.nextCallId, fn) = some esrcs
  ∧ alookup
      (cache s fd fn fg cid bound result cfds esrcs edsts edigs).extDsts
      (cid.getD s.nextCallId, fn) = some edsts := by
  have hndc : (cfds.map Prod.fst).Nodup := by
    rw [List.map_append] at hnd
    exact (List.nodup_append.mp hnd).1
  have hnde : (edigs.map Prod.fst).Nodup := by
    rw [List.map_append] at hnd
    exact (List.nodup_append.mp hnd).2.1
  have hdis : ∀ f, f ∈ cfds.map Prod.fst → f ∉ edigs.map Prod.fst := by
    rw [List.map_append] at hnd
    exact fun f hf => (List.nodup_append.mp hnd).2.2 hf
  have hnext : (if fd then save_function s fn fg else s).nextCallId
      = s.nextCallId := by
    cases fd with
    | false => rfl
    | true => exact save_function_nextCallId s fn fg
  have hfid : (save_call (if fd then save_function s fn fg else s)
      fn cid bound result).1 = cid.getD s.nextCallId := by
    rw [save_call_fst, hnext]
  rw [cache_def]
  rw [save_external_files_def]
  refine ⟨?_, ?_, ?_, ?_, ?_, ?_⟩
  · intro hfd
    subst hfd
    show find_function (save_call_files _ _ fn edigs) fn = some fg
    unfold find_function
    rw [(save_call_files_fields _ fn edigs _).1,
      (save_call_files_fields _ fn cfds _).1]
    cases cid with
    | none =>
      exact find_function_save_function s fn fg
    | some c =>
      exact find_function_save_function s fn fg
  · show find_call (save_call_files _ _ fn edigs) fn bound = _
    unfold find_call
    rw [(save_call_files_fields _ fn edigs _).2.1,
      (save_call_files_fields _ fn cfds _).2.1]
    have h := find_call_save_call (if fd then save_function s fn fg else s)
      fn cid bound result
    rw [hfid] at h
    exact h
  · intro f dd hmem
    show find_call_file (save_call_files _ _ fn edigs) _ fn f = some dd
    rw [hfid]
    rw [save_call_files_miss _ _ fn fn edigs _ f
      (hdis f (List.mem_map_of_mem Prod.fst hmem))]
    have h := save_call_files_hit
      (save_call (if fd then save_function s fn fg else s)
        fn cid bound result).1 fn cfds
      (save_call (if fd then save_function s fn fg else s)
        fn cid bound result).2 f dd hmem hndc
    rw [hfid] at h
    exact h
  · intro f dd hmem
    show find_call_file (save_call_files _ _ fn edigs) _ fn f = some dd
    rw [hfid]
    have h := save_call_files_hit
      (save_call (if fd then save_function s fn fg else s)
        fn cid bound result).1 fn edigs
      (save_call_files
        (save_call (if fd then save_function s fn fg else s)
          fn cid bound result).2
        (save_call (if fd then save_function s fn fg else s)
          fn cid bound result).1
        fn cfds) f dd hmem hnde
    rw [hfid] at h
    exact h
  · show alookup (aset _ _ esrcs) _ = some esrcs
    rw [hfid]
    exact alookup_aset_self _ _ _
  · show alookup (aset _ _ edsts) _ = some edsts
    rw [hfid]
    exact alookup_aset_self _ _ _

/-- The initial database of the C2 witness. -/
def c2St : DBSt :=
  { functions := [], calls := [], nextCallId := 5, callFiles := [],
    extSrcs := [], extDsts := [], files := [] }

/-- Witness for C2 at concrete inputs: a dirty function with no prior
call-id gets the fresh call-id 5, and every record lands under it. -/
theorem C2_cache_records_witness :
    ((([("a", "da")] ++ [("h", "dh")]).map Prod.fst)).Nodup
  ∧ find_function
      (cache c2St true "f" "fg" none "b" "res" [("a", "da")] ["h"] ["o"]
        [("h", "dh")]) "f" = some "fg"
  ∧ find_call
      (cache c2St true "f" "fg" none "b" "res" [("a", "da")] ["h"] ["o"]
        [("h", "dh")]) "f" "b" = some (5, "res")
  ∧ find_call_file
      (cache c2St true "f" "fg" none "b" "res" [("a", "da")] ["h"] ["o"]
        [("h", "dh")]) 5 "f" "a" = some "da"
  ∧ find_call_file
      (cache c2St true "f" "fg" none "b" "res" [("a", "da")] ["h"] ["o"]
        [("h", "dh")]) 5 "f" "h" = some "dh"
  ∧ alookup
      (cache c2St true "f" "fg" none "b" "res" [("a", "da")] ["h"] ["o"]
        [("h", "dh")]).extSrcs (5, "f") = some ["h"]
  ∧ alookup
      (cache c2St true "f" "fg" none "b" "res" [("a", "da")] ["h"] ["o"]
        [("h", "dh")]).extDsts (5, "f") = some ["o"] := by
  have h := C2_cache_records c2St true "f" "fg" none "b" "res"
    [("a", "da")] ["h"] ["o"] [("h", "dh")] (by decide)
  exact ⟨by decide, h.1 rfl, h.2.1, h.2.2.1 "a" "da" (by simp),
    h.2.2.2.1 "h" "dh" (by simp), h.2.2.2.2.1, h.2.2.2.2.2⟩

end Fbuild
